import Mathlib

/-!
Shallow embedding of `src/react/features/conference/components/web/Conference.js`
(the web `Conference` component of jitsi-meet): the `LAYOUT_CLASSNAMES` table,
the visibility decisions made in `Conference.render`, and the
`Conference._setBackground` mutation, together with the spec's designed
`ScreenVisibilityResolver` error behaviour for comparison.
-/

/-- The three enumerated layout modes (`LAYOUTS.HORIZONTAL_FILMSTRIP_VIEW`,
`LAYOUTS.TILE_VIEW`, `LAYOUTS.VERTICAL_FILMSTRIP_VIEW`) that key the
`LAYOUT_CLASSNAMES` object (Conference.js lines 59-63). -/
inductive LayoutMode
  | HorizontalFilmstrip
  | TileView
  | VerticalFilmstrip
deriving DecidableEq

/-- The `LAYOUT_CLASSNAMES` table of Conference.js lines 59-63, restricted to
its three present keys. -/
def LAYOUT_CLASSNAMES : LayoutMode → String
  | LayoutMode.HorizontalFilmstrip => "horizontal-filmstrip"
  | LayoutMode.TileView => "tile-view"
  | LayoutMode.VerticalFilmstrip => "vertical-filmstrip"

/-- A value that may be fed to the `LAYOUT_CLASSNAMES[...]` lookup at
Conference.js line 400: either one of the three enumerated modes, or any other
value (`getCurrentLayout` is external, so the lookup key is not statically
confined to the three keys of the table). -/
inductive LayoutValue
  | known : LayoutMode → LayoutValue
  | unknown : String → LayoutValue
deriving DecidableEq

/-- JavaScript object indexing `LAYOUT_CLASSNAMES[v]` (Conference.js line 400):
a present key yields its value, any absent key yields `undefined` (`none`).
No exception is thrown. -/
def layoutClassLookup : LayoutValue → Option String
  | LayoutValue.known m => some (LAYOUT_CLASSNAMES m)
  | LayoutValue.unknown _ => none

/-- The spec's error enumeration for the designed resolver. -/
inductive ErrorKind
  | UnknownLayout
  | InvalidColor
deriving DecidableEq

/-- Modelled from the spec: the designed `layoutClassName` resolver of
`ScreenVisibilityResolver` (spec 4.1 step 4 and 7), which is absent from the
code — a direct lookup of `LayoutMode` into a fixed three-entry table that
fails with `ErrorKind.UnknownLayout` when an unrecognized variant is supplied,
the error propagating to the caller. -/
def layoutClassNameSpec : LayoutValue → Except ErrorKind String
  | LayoutValue.known m => Except.ok (LAYOUT_CLASSNAMES m)
  | LayoutValue.unknown _ => Except.error ErrorKind.UnknownLayout

/-- The `clsx` call of Conference.js line 235: joins its truthy string
arguments with single spaces, silently dropping `undefined`, `false` and the
empty string. -/
def clsxJoin (args : List (Option String)) : String :=
  String.intercalate " " ((args.filterMap id).filter (fun s => s ≠ ""))

/-- Placement of the notifications container in `Conference.render`
(Conference.js lines 251-256): inside the `JitsiPortal` drawer (`Overlay`) or
directly in the page (`Inline`). -/
inductive NotificationPlacement
  | Overlay
  | Inline
deriving DecidableEq

/-- The props read by `Conference.render` (Conference.js lines 218-225).
`layoutClassName` is an `Option` because `_layoutClassName` is produced by the
`LAYOUT_CLASSNAMES[...]` lookup and may be `undefined`. -/
structure Props where
  layoutClassName : Option String
  notificationsVisible : Bool
  overflowDrawer : Bool
  showLobby : Bool
  showPrejoin : Bool
  showStageFilmstrip : Bool
deriving DecidableEq

/-- The visibility decisions present in the tree returned by
`Conference.render` (Conference.js lines 227-265): which optional children are
included and the class string of the `videoconference_page` div. -/
structure RenderedOutput where
  videoconferenceClassName : String
  showStageFilmstrip : Bool
  showToolbox : Bool
  notificationPlacement : Option NotificationPlacement
  showCalleeInfo : Bool
  showPrejoin : Bool
  showLobby : Bool
deriving DecidableEq

/-- `Conference.render` (Conference.js lines 217-266), restricted to its
visibility decisions:
line 235: `clsx(_layoutClassName, _showStageFilmstrip && 'stage-filmstrip')`;
line 245: `_showStageFilmstrip && <StageFilmstrip />`;
line 249: `_showPrejoin || _showLobby || <Toolbox />`;
lines 251-256: `_notificationsVisible && (_overflowDrawer ? portal : inline)`;
line 258: `<CalleeInfoContainer />` unconditionally;
line 260: `_showPrejoin && <Prejoin />`;
line 261: `_showLobby && <LobbyScreen />`. -/
def Conference_render (p : Props) : RenderedOutput :=
  { videoconferenceClassName :=
      clsxJoin [p.layoutClassName,
        if p.showStageFilmstrip then some "stage-filmstrip" else none]
    showStageFilmstrip := p.showStageFilmstrip
    showToolbox := !(p.showPrejoin || p.showLobby)
    notificationPlacement :=
      if p.notificationsVisible then
        some (if p.overflowDrawer then NotificationPlacement.Overlay
              else NotificationPlacement.Inline)
      else none
    showCalleeInfo := true
    showPrejoin := p.showPrejoin
    showLobby := p.showLobby }

/-- A CSS background value as seen by the opacity compositor: either a
parseable color, split into the alpha component and everything else of the
specification, or an unparseable string. -/
inductive ColorSpec
  | color (base : String) (alpha : Option ℚ)
  | invalid (raw : String)
deriving DecidableEq

/-- Modelled from the spec: `setColorAlpha` is imported from
`react/features/base/util`, which is not under src/. Spec 4.2 and 7: produce
an adjusted color with the given alpha, preserving the rest of the color
specification; an unparseable color (`ErrorKind.InvalidColor`) is recovered
locally by passing the input through unchanged. -/
def setColorAlpha : ColorSpec → ℚ → ColorSpec
  | ColorSpec.color base _, a => ColorSpec.color base (some a)
  | ColorSpec.invalid raw, _ => ColorSpec.invalid raw

/-- The mutable backgrounds reachable from the element passed to
`Conference._setBackground`: `element.style.background` and, when
`element.parentElement` exists, `element.parentElement.style.background`. -/
structure ElementState where
  background : ColorSpec
  parentBackground : Option ColorSpec
deriving DecidableEq

/-- `Conference._setBackground` (Conference.js lines 278-295), as a function
from the pre-state of the referenced element (or `none` for a null ref) to its
post-state: return immediately on a null element; do nothing unless
`_backgroundAlpha` is defined; otherwise set the element's background to
`setColorAlpha` of it, and likewise for the parent when a parent exists. -/
def Conference_setBackground (backgroundAlpha : Option ℚ)
    (element : Option ElementState) : Option ElementState :=
  match element with
  | none => none
  | some el =>
    match backgroundAlpha with
    | none => some el
    | some a =>
      some { background := setColorAlpha el.background a
             parentBackground :=
               Option.map (fun c => setColorAlpha c a) el.parentBackground }

/-- C1 counterexample: with both `_showPrejoin` and `_showLobby` true,
`Conference.render` includes both the Prejoin screen and the Lobby screen
(lines 260 and 261 are independent conjuncts), so the two screens are not
mutually exclusive in the rendered output. -/
theorem prejoin_lobby_both_rendered :
    (Conference_render
      { layoutClassName := some "tile-view", notificationsVisible := true,
        overflowDrawer := false, showLobby := true, showPrejoin := true,
        showStageFilmstrip := false }).showPrejoin = true
    ∧ (Conference_render
      { layoutClassName := some "tile-view", notificationsVisible := true,
        overflowDrawer := false, showLobby := true, showPrejoin := true,
        showStageFilmstrip := false }).showLobby = true :=
  ⟨rfl, rfl⟩

/-- C1 (amended): whenever `_showPrejoin` is true the Prejoin screen is
rendered and the Toolbox suppressed, regardless of `_showLobby`; but the Lobby
screen is rendered independently exactly when `_showLobby` is true, so the two
screens coincide when both flags are true. -/
theorem prejoin_rendered_whenever_flag (p : Props) (h : p.showPrejoin = true) :
    (Conference_render p).showPrejoin = true
    ∧ (Conference_render p).showToolbox = false
    ∧ (Conference_render p).showLobby = p.showLobby := by
  refine ⟨h, ?_, rfl⟩
  simp [Conference_render, h]

/-- Witness for C1 at a concrete input. -/
theorem prejoin_rendered_whenever_flag_witness :
    (Conference_render
      { layoutClassName := none, notificationsVisible := false,
        overflowDrawer := false, showLobby := false, showPrejoin := true,
        showStageFilmstrip := false }).showPrejoin = true
    ∧ (Conference_render
      { layoutClassName := none, notificationsVisible := false,
        overflowDrawer := false, showLobby := false, showPrejoin := true,
        showStageFilmstrip := false }).showToolbox = false
    ∧ (Conference_render
      { layoutClassName := none, notificationsVisible := false,
        overflowDrawer := false, showLobby := false, showPrejoin := true,
        showStageFilmstrip := false }).showLobby = false :=
  prejoin_rendered_whenever_flag
    { layoutClassName := none, notificationsVisible := false,
      overflowDrawer := false, showLobby := false, showPrejoin := true,
      showStageFilmstrip := false } rfl

/-- C2: the Toolbox is rendered if and only if both `_showPrejoin` and
`_showLobby` are false (Conference.js line 249). -/
theorem toolbox_iff_no_prejoin_no_lobby (p : Props) :
    (Conference_render p).showToolbox = true
    ↔ (p.showPrejoin = false ∧ p.showLobby = false) := by
  rcases p with ⟨lc, nv, od, sl, sp, ss⟩
  cases sp <;> cases sl <;> simp [Conference_render]

/-- C3: the notifications container is in the drawer portal (`Overlay`) when
both `_overflowDrawer` and `_notificationsVisible` hold, rendered inline when
only `_notificationsVisible` holds, and omitted when `_notificationsVisible`
is false, regardless of `_overflowDrawer` (Conference.js lines 251-256). -/
theorem notification_placement_cases (p : Props) :
    (p.notificationsVisible = true → p.overflowDrawer = true →
      (Conference_render p).notificationPlacement
        = some NotificationPlacement.Overlay)
    ∧ (p.notificationsVisible = true → p.overflowDrawer = false →
      (Conference_render p).notificationPlacement
        = some NotificationPlacement.Inline)
    ∧ (p.notificationsVisible = false →
      (Conference_render p).notificationPlacement = none) := by
  rcases p with ⟨lc, nv, od, sl, sp, ss⟩
  cases nv <;> cases od <;> simp [Conference_render]

/-- Witness for C3 at a concrete input. -/
theorem notification_placement_cases_witness :
    (Conference_render
      { layoutClassName := none, notificationsVisible := true,
        overflowDrawer := true, showLobby := false, showPrejoin := false,
        showStageFilmstrip := false }).notificationPlacement
      = some NotificationPlacement.Overlay :=
  (notification_placement_cases
    { layoutClassName := none, notificationsVisible := true,
      overflowDrawer := true, showLobby := false, showPrejoin := false,
      showStageFilmstrip := false }).1 rfl rfl

/-- C4: `LAYOUT_CLASSNAMES` is a pure total function of the three-valued
`LayoutMode` mapping the three modes to the three listed strings; equal inputs
yield equal outputs, and the three outputs are pairwise distinct and
non-empty (Conference.js lines 59-63). -/
theorem layout_classnames_total_distinct :
    LAYOUT_CLASSNAMES LayoutMode.HorizontalFilmstrip = "horizontal-filmstrip"
    ∧ LAYOUT_CLASSNAMES LayoutMode.TileView = "tile-view"
    ∧ LAYOUT_CLASSNAMES LayoutMode.VerticalFilmstrip = "vertical-filmstrip"
    ∧ (∀ m₁ m₂ : LayoutMode, m₁ = m₂ →
        LAYOUT_CLASSNAMES m₁ = LAYOUT_CLASSNAMES m₂)
    ∧ (∀ m₁ m₂ : LayoutMode, m₁ ≠ m₂ →
        LAYOUT_CLASSNAMES m₁ ≠ LAYOUT_CLASSNAMES m₂)
    ∧ (∀ m : LayoutMode, LAYOUT_CLASSNAMES m ≠ "") := by
  refine ⟨rfl, rfl, rfl, ?_, ?_, ?_⟩
  · intro m₁ m₂ h
    rw [h]
  · intro m₁ m₂ h
    cases m₁ <;> cases m₂ <;> first | (exact absurd rfl h) | decide
  · intro m
    cases m <;> decide

/-- C5 counterexample: for a layout value outside the three enumerated modes,
the code's lookup (Conference.js line 400) yields `undefined` rather than an
error, and rendering proceeds, producing a class string without the layout
class — silent recovery — whereas the spec's designed resolver fails with
`ErrorKind.UnknownLayout`. -/
theorem unknown_layout_recovered_silently :
    layoutClassLookup (LayoutValue.unknown "bogus-layout") = none
    ∧ (Conference_render
        { layoutClassName := layoutClassLookup (LayoutValue.unknown "bogus-layout"),
          notificationsVisible := false, overflowDrawer := false,
          showLobby := false, showPrejoin := false,
          showStageFilmstrip := true }).videoconferenceClassName
      = "stage-filmstrip"
    ∧ layoutClassNameSpec (LayoutValue.unknown "bogus-layout")
      = Except.error ErrorKind.UnknownLayout :=
  ⟨rfl, rfl, rfl⟩

/-- C5 (amended): a layout value that is not one of the three enumerated modes
makes the lookup yield `undefined` (no class name) with no error raised; the
spec's designed resolver would instead fail with `ErrorKind.UnknownLayout`. -/
theorem unknown_layout_yields_undefined (s : String) :
    layoutClassLookup (LayoutValue.unknown s) = none
    ∧ layoutClassNameSpec (LayoutValue.unknown s)
      = Except.error ErrorKind.UnknownLayout :=
  ⟨rfl, rfl⟩

/-- C6 counterexample: with `_showPrejoin` true, `Conference.render` still
includes the `CalleeInfoContainer` (Conference.js line 258 is unconditional),
so the callee-info overlay is not suppressed by the prejoin flag. -/
theorem calleeinfo_rendered_during_prejoin :
    (Conference_render
      { layoutClassName := none, notificationsVisible := false,
        overflowDrawer := false, showLobby := false, showPrejoin := true,
        showStageFilmstrip := false }).showPrejoin = true
    ∧ (Conference_render
      { layoutClassName := none, notificationsVisible := false,
        overflowDrawer := false, showLobby := false, showPrejoin := true,
        showStageFilmstrip := false }).showCalleeInfo = true :=
  ⟨rfl, rfl⟩

/-- C6 (amended): whenever the prejoin flag or the lobby flag is true, the
Toolbox is suppressed, but the `CalleeInfoContainer` is still rendered:
`Conference.render` includes it unconditionally. -/
theorem calleeinfo_unconditional_toolbox_suppressed (p : Props)
    (h : p.showPrejoin = true ∨ p.showLobby = true) :
    (Conference_render p).showCalleeInfo = true
    ∧ (Conference_render p).showToolbox = false := by
  refine ⟨rfl, ?_⟩
  rcases h with h | h <;> simp [Conference_render, h]

/-- Witness for C6 at a concrete input. -/
theorem calleeinfo_unconditional_toolbox_suppressed_witness :
    (Conference_render
      { layoutClassName := none, notificationsVisible := false,
        overflowDrawer := false, showLobby := true, showPrejoin := false,
        showStageFilmstrip := false }).showCalleeInfo = true
    ∧ (Conference_render
      { layoutClassName := none, notificationsVisible := false,
        overflowDrawer := false, showLobby := true, showPrejoin := false,
        showStageFilmstrip := false }).showToolbox = false :=
  calleeinfo_unconditional_toolbox_suppressed
    { layoutClassName := none, notificationsVisible := false,
      overflowDrawer := false, showLobby := true, showPrejoin := false,
      showStageFilmstrip := false } (Or.inr rfl)

/-- C7: when both `_showPrejoin` and `_showLobby` are false, neither the
Prejoin screen nor the Lobby screen is rendered and the Toolbox is shown
(Conference.js lines 249, 260, 261). -/
theorem main_conference_when_flags_false (p : Props)
    (h1 : p.showPrejoin = false) (h2 : p.showLobby = false) :
    (Conference_render p).showPrejoin = false
    ∧ (Conference_render p).showLobby = false
    ∧ (Conference_render p).showToolbox = true := by
  refine ⟨h1, h2, ?_⟩
  simp [Conference_render, h1, h2]

/-- Witness for C7 at a concrete input. -/
theorem main_conference_when_flags_false_witness :
    (Conference_render
      { layoutClassName := some "vertical-filmstrip",
        notificationsVisible := false, overflowDrawer := false,
        showLobby := false, showPrejoin := false,
        showStageFilmstrip := false }).showPrejoin = false
    ∧ (Conference_render
      { layoutClassName := some "vertical-filmstrip",
        notificationsVisible := false, overflowDrawer := false,
        showLobby := false, showPrejoin := false,
        showStageFilmstrip := false }).showLobby = false
    ∧ (Conference_render
      { layoutClassName := some "vertical-filmstrip",
        notificationsVisible := false, overflowDrawer := false,
        showLobby := false, showPrejoin := false,
        showStageFilmstrip := false }).showToolbox = true :=
  main_conference_when_flags_false
    { layoutClassName := some "vertical-filmstrip",
      notificationsVisible := false, overflowDrawer := false,
      showLobby := false, showPrejoin := false,
      showStageFilmstrip := false } rfl rfl

/-- C8: given an element whose background is a parseable color, a parent with
a parseable color background, and a defined alpha, `_setBackground` applies
the same alpha to both the element background and the parent background,
leaving the rest of each color specification unchanged
(Conference.js lines 283-293). -/
theorem setBackground_applies_alpha_to_both (b pb : String)
    (al pal : Option ℚ) (a : ℚ) :
    Conference_setBackground (some a)
      (some { background := ColorSpec.color b al,
              parentBackground := some (ColorSpec.color pb pal) })
    = some { background := ColorSpec.color b (some a),
             parentBackground := some (ColorSpec.color pb (some a)) } :=
  rfl

/-- C9: `Conference.render` is deterministic — structurally identical props
yield structurally equal rendered outputs. -/
theorem render_deterministic (p q : Props) (h : p = q) :
    Conference_render p = Conference_render q := by
  rw [h]

/-- Witness for C9 at a concrete input. -/
theorem render_deterministic_witness :
    Conference_render
      { layoutClassName := some "horizontal-filmstrip",
        notificationsVisible := true, overflowDrawer := true,
        showLobby := true, showPrejoin := false, showStageFilmstrip := true }
    = Conference_render
      { layoutClassName := some "horizontal-filmstrip",
        notificationsVisible := true, overflowDrawer := true,
        showLobby := true, showPrejoin := false, showStageFilmstrip := true } :=
  render_deterministic
    { layoutClassName := some "horizontal-filmstrip",
      notificationsVisible := true, overflowDrawer := true,
      showLobby := true, showPrejoin := false, showStageFilmstrip := true }
    { layoutClassName := some "horizontal-filmstrip",
      notificationsVisible := true, overflowDrawer := true,
      showLobby := true, showPrejoin := false, showStageFilmstrip := true }
    rfl

/-- C10: `_setBackground` mutates nothing when the element is null or when
`_backgroundAlpha` is undefined (Conference.js lines 279-283): the post-state
of the element equals its pre-state. -/
theorem setBackground_frame (backgroundAlpha : Option ℚ)
    (element : Option ElementState)
    (h : element = none ∨ backgroundAlpha = none) :
    Conference_setBackground backgroundAlpha element = element := by
  rcases h with h | h
  · rw [h]
    rfl
  · rw [h]
    cases element <;> rfl

/-- Witness for C10 at a concrete input. -/
theorem setBackground_frame_witness :
    Conference_setBackground (some (1 / 2 : ℚ)) none = none
    ∧ Conference_setBackground none
        (some { background := ColorSpec.color "red" none,
                parentBackground := none })
      = some { background := ColorSpec.color "red" none,
               parentBackground := none } :=
  ⟨setBackground_frame (some (1 / 2 : ℚ)) none (Or.inl rfl),
   setBackground_frame none
     (some { background := ColorSpec.color "red" none,
             parentBackground := none }) (Or.inr rfl)⟩
